import Mathlib

/-!
# CineScope: the session state machine of `src/App.js`

A shallow embedding of the `App` component's session logic: the `authState`
record, every `setAuthState` call of the file as a pure state transformer,
and every handler (`handleLogout`, `fetchUserProfiles`, `handleLogin`,
`initializeAuth`, `handleProfileUpdate`, `onSelectProfile`,
`onCreateProfile`) as the ordered list of effects it performs
(`localStorage` writes, HTTP requests, state updates).

What the handlers await from the outside (the reply of an HTTP request, the
result of `jwtDecode`) is passed in as an argument.
-/

namespace CineScope

/-! ## JavaScript values and objects -/

/-- A JavaScript value stored in a property of an account, a token payload or
a profile. Numbers are cut down to the integers, with `nan` kept apart
because it is the one value that is not strictly equal to itself; a nested
object or array is a reference `ref addr`, which `===` compares by identity. -/
inductive JVal where
  | undefined
  | null
  | bool (b : Bool)
  | num (n : Int)
  | nan
  | str (s : String)
  | ref (addr : Nat)
  deriving DecidableEq, Repr

/-- The operator `a === b`. -/
def strictEq : JVal → JVal → Bool
  | .nan, _ => false
  | _, .nan => false
  | a, b => decide (a = b)

/-- Truthiness of a value, as tested by `if (v)`. -/
def truthy : JVal → Bool
  | .undefined => false
  | .null => false
  | .bool b => b
  | .num n => decide (n ≠ 0)
  | .nan => false
  | .str s => decide (s ≠ "")
  | .ref _ => true

/-- A plain object: its own properties in insertion order. The first binding
of a key is the one that counts, for reading and for writing alike. -/
abbrev Obj := List (String × JVal)

/-- Property read `o.k`: `undefined` when `o` has no property `k`. -/
def getProp (o : Obj) (k : String) : JVal :=
  (o.lookup k).getD JVal.undefined

/-- Optional chaining `o?.k`, for an `o` that is `null` or an object. -/
def getPropOpt (o : Option Obj) (k : String) : JVal :=
  match o with
  | none => JVal.undefined
  | some obj => getProp obj k

/-- Whether `o` has an own property `k`. -/
def hasOwn (o : Obj) (k : String) : Bool :=
  o.any (fun kv => kv.1 == k)

/-- Property write `o[k] = v` on a copy of `o`: an existing key keeps its
place, a new key goes last. -/
def setProp : Obj → String → JVal → Obj
  | [], k, v => [(k, v)]
  | (k0, v0) :: rest, k, v =>
    if k0 == k then (k, v) :: rest else (k0, v0) :: setProp rest k v

/-- Copies the own properties of `src`, in order, onto `target`. -/
def assign (target src : Obj) : Obj :=
  src.foldl (fun acc kv => setProp acc kv.1 kv.2) target

/-- The object literal `{ ...a, ...b }` where `a` is `null` or an object:
spreading `null` contributes nothing. -/
def spread (a : Option Obj) (b : Obj) : Obj :=
  assign (a.getD []) b

/-! ## The session state -/

/-- The `authState` record of `App` (lines 29-38). `user` and
`selectedProfile` are `null` or an object. -/
structure AuthState where
  isAuthenticated : Bool
  isLoading : Bool
  user : Option Obj
  selectedProfile : Option Obj
  profiles : List Obj
  isAdmin : Bool
  isSidebarOpen : Bool
  isInfoOpen : Bool
  deriving DecidableEq, Repr

/-- The initial value given to `useState` (lines 29-38). -/
def initialAuthState : AuthState :=
  { isAuthenticated := false
    isLoading := true
    user := none
    selectedProfile := none
    profiles := []
    isAdmin := false
    isSidebarOpen := false
    isInfoOpen := false }

/-- The object literal `{ name: "Admin", profile_emoji: "👑", is_admin: true }`
of lines 97 and 130. -/
def adminProfile : Obj :=
  [("name", JVal.str "Admin"), ("profile_emoji", JVal.str "👑"),
   ("is_admin", JVal.bool true)]

/-- The callback of `prev.profiles.findIndex` in `handleProfileUpdate`
(line 150). -/
def matchesSelected (selectedProfile : Option Obj) (p : Obj) : Bool :=
  strictEq (getProp p "name") (getPropOpt selectedProfile "name") &&
  strictEq (getProp p "profile_emoji") (getPropOpt selectedProfile "profile_emoji")

/-- `Array.prototype.findIndex`: the index of the first element satisfying
`f`, with `none` standing for `-1`. -/
def findIndex (f : Obj → Bool) : List Obj → Option Nat
  | [] => none
  | p :: rest => if f p then some 0 else (findIndex f rest).map (· + 1)

/-- The updater passed to `setAuthState` in `handleProfileUpdate`
(lines 148-161). -/
def profileUpdater (updatedProfile : Obj) (prev : AuthState) : AuthState :=
  let idx := findIndex (matchesSelected prev.selectedProfile) prev.profiles
  let newProfiles :=
    match idx with
    | some i => prev.profiles.set i (spread (prev.profiles.get? i) updatedProfile)
    | none => prev.profiles
  { prev with
    selectedProfile := some (spread prev.selectedProfile updatedProfile)
    profiles := newProfiles }

/-- Every argument given to `setAuthState` in the file, as data. -/
inductive Update where
  /-- Line 43. -/
  | infoOpen (isOpen : Bool)
  /-- Line 47. -/
  | sidebarOpen (isOpen : Bool)
  /-- Lines 52-61, the literal given by `handleLogout`. -/
  | loggedOut
  /-- Lines 73-81, the success branch of `fetchUserProfiles`. -/
  | profilesFetched (userData : Obj) (profiles : List Obj)
  /-- Lines 84, 111 and 139: `prev => ({ ...prev, isLoading: false })`. -/
  | loadingDone
  /-- Lines 92-100, the administrator branch of `handleLogin`. -/
  | adminLoggedIn (userData : Obj)
  /-- Lines 125-132, the administrator branch of `initializeAuth`. -/
  | adminRestored (decoded : Obj)
  /-- Lines 148-161, `handleProfileUpdate`. -/
  | profileUpdated (updatedProfile : Obj)
  /-- Line 211, `onSelectProfile`. -/
  | profileSelected (profile : Option Obj)
  /-- Line 214, `onCreateProfile`. -/
  | profileCreated (newProfile : Obj)
  deriving DecidableEq, Repr

/-- The state after `setAuthState(u)` when the state before is `prev`. -/
def Update.apply : Update → AuthState → AuthState
  | .infoOpen isOpen, prev => { prev with isInfoOpen := isOpen }
  | .sidebarOpen isOpen, prev => { prev with isSidebarOpen := isOpen }
  | .loggedOut, _ =>
    { isAuthenticated := false
      isLoading := false
      user := none
      selectedProfile := none
      profiles := []
      isAdmin := false
      isSidebarOpen := false
      isInfoOpen := false }
  | .profilesFetched userData profiles, prev =>
    { prev with
      isAuthenticated := true
      isLoading := false
      user := some userData
      selectedProfile := none
      profiles := profiles
      isAdmin := false }
  | .loadingDone, prev => { prev with isLoading := false }
  | .adminLoggedIn userData, prev =>
    { prev with
      isAuthenticated := true
      isLoading := false
      user := some userData
      selectedProfile := some adminProfile
      profiles := []
      isAdmin := true }
  | .adminRestored decoded, prev =>
    { prev with
      isAuthenticated := true
      isLoading := false
      user := some decoded
      selectedProfile := some adminProfile
      isAdmin := true }
  | .profileUpdated updatedProfile, prev => profileUpdater updatedProfile prev
  | .profileSelected profile, prev => { prev with selectedProfile := profile }
  | .profileCreated newProfile, prev =>
    { prev with profiles := prev.profiles ++ [newProfile] }

/-! ## Effects of the handlers -/

/-- The two endpoints of the identity service the file calls. -/
inductive Endpoint where
  /-- `GET http://localhost:5000/user/profile` (line 117). -/
  | userProfile
  /-- `GET http://localhost:5000/user/profiles` (line 66). -/
  | userProfiles
  deriving DecidableEq, Repr

/-- One observable step of a handler. -/
inductive Effect where
  /-- `localStorage.removeItem("token")`. -/
  | removeItem
  /-- `localStorage.setItem("token", token)`. -/
  | setItem (token : String)
  /-- `fetch(url, { headers: { Authorization: "Bearer " + token } })`. -/
  | fetch (url : Endpoint) (token : String)
  /-- `setAuthState(u)`. -/
  | setAuthState (u : Update)
  deriving DecidableEq, Repr

/-- How an awaited HTTP exchange ends: `ok body` when `fetch` resolves,
`response.ok` holds and `response.json()` resolves to `body`; the other three
are the ways it throws inside the `try`. -/
inductive Reply (α : Type) where
  | ok (body : α)
  | notOk
  | transportError
  | unreadableBody
  deriving DecidableEq, Repr

/-- Whether the exchange threw. -/
def Reply.failed {α : Type} : Reply α → Bool
  | .ok _ => false
  | _ => true

/-- What the handlers act on: the `"token"` item of `localStorage` and the
`authState` of the component. -/
structure World where
  token : Option String
  authState : AuthState
  deriving DecidableEq, Repr

/-- The world after one effect. -/
def Effect.step (w : World) : Effect → World
  | .removeItem => { w with token := none }
  | .setItem token => { w with token := some token }
  | .fetch _ _ => w
  | .setAuthState u => { w with authState := u.apply w.authState }

/-- The world after a handler's effects, in order. -/
def run (effects : List Effect) (w : World) : World :=
  effects.foldl Effect.step w

/-- The HTTP requests among a handler's effects, in order. -/
def requests : List Effect → List Endpoint
  | [] => []
  | .fetch url _ :: rest => url :: requests rest
  | _ :: rest => requests rest

/-- The state updates among a handler's effects, in order. -/
def updates : List Effect → List Update
  | [] => []
  | .setAuthState u :: rest => u :: updates rest
  | _ :: rest => updates rest

/-- `handleLogout` (lines 50-62). -/
def handleLogout : List Effect :=
  [Effect.removeItem, Effect.setAuthState Update.loggedOut]

/-- The update `fetchUserProfiles` applies once its request has ended with
`reply` (lines 70-85). The body of a successful reply is taken to be an array
of objects. -/
def fetchUserProfilesUpdate (userData : Obj) (reply : Reply (List Obj)) : Update :=
  match reply with
  | .ok profiles => Update.profilesFetched userData profiles
  | _ => Update.loadingDone

/-- `fetchUserProfiles(token, userData)` (lines 64-86), the request ending
with `reply`. -/
def fetchUserProfiles (token : String) (userData : Obj)
    (reply : Reply (List Obj)) : List Effect :=
  [Effect.fetch Endpoint.userProfiles token,
   Effect.setAuthState (fetchUserProfilesUpdate userData reply)]

/-- `handleLogin(token, userData)` (lines 88-105); `reply` is how the
profiles request ends when one is made. -/
def handleLogin (token : String) (userData : Obj)
    (reply : Reply (List Obj)) : List Effect :=
  Effect.setItem token ::
    (if truthy (getProp userData "is_admin") then
      [Effect.setAuthState (Update.adminLoggedIn userData)]
    else
      fetchUserProfiles token userData reply)

/-- `initializeAuth()` (lines 108-141). `stored` is what
`localStorage.getItem("token")` returns, `jwtDecode` the decoder (`none`
when it throws), `account` how the current-account request ends and
`reply` how the profiles request ends, when they are made. -/
def initializeAuth (stored : Option String) (jwtDecode : String → Option Obj)
    (account : Reply Obj) (reply : Reply (List Obj)) : List Effect :=
  match stored with
  | none => [Effect.setAuthState Update.loadingDone]
  | some token =>
    if token = "" then [Effect.setAuthState Update.loadingDone]
    else
      match jwtDecode token with
      | none => [Effect.removeItem, Effect.setAuthState Update.loadingDone]
      | some decoded =>
        Effect.fetch Endpoint.userProfile token ::
          (match account with
           | .ok userData =>
             if truthy (getProp userData "is_admin") then
               [Effect.setAuthState (Update.adminRestored decoded)]
             else
               fetchUserProfiles token decoded reply
           | _ => [Effect.removeItem, Effect.setAuthState Update.loadingDone])

/-- The effect run on mount (lines 107-144): `initializeAuth` reading the
token the world holds. -/
def restoreSession (jwtDecode : String → Option Obj) (account : Reply Obj)
    (reply : Reply (List Obj)) (w : World) : List Effect :=
  initializeAuth w.token jwtDecode account reply

/-- `handleProfileUpdate(updatedProfile)` (lines 147-162). -/
def handleProfileUpdate (updatedProfile : Obj) : List Effect :=
  [Effect.setAuthState (Update.profileUpdated updatedProfile)]

/-- `onSelectProfile(profile)` (lines 210-212). -/
def onSelectProfile (profile : Option Obj) : List Effect :=
  [Effect.setAuthState (Update.profileSelected profile)]

/-- `onCreateProfile(newProfile)` (lines 213-215). -/
def onCreateProfile (newProfile : Obj) : List Effect :=
  [Effect.setAuthState (Update.profileCreated newProfile)]

/-! ## Reachable states -/

/-- States reached from the initial one by applying, in any order, updates
that `allowed` admits at the state they are applied to. -/
inductive ReachableBy (allowed : AuthState → Update → Prop) : AuthState → Prop where
  | init : ReachableBy allowed initialAuthState
  | step {s : AuthState} (u : Update) :
      ReachableBy allowed s → allowed s u → ReachableBy allowed (u.apply s)

/-- States reached by any sequence of the file's updates, with any
arguments. -/
def Reachable : AuthState → Prop :=
  ReachableBy (fun _ _ => True)

/-- Whether the selected profile exists and has `is_admin === true`. -/
def selectedIsAdmin (s : AuthState) : Bool :=
  strictEq (getPropOpt s.selectedProfile "is_admin") (JVal.bool true)

/-- The administrator invariant: `isAdmin` holds exactly when the selected
profile is an administrator profile, and then the profile list is empty. -/
def AdminInvariant (s : AuthState) : Prop :=
  (s.isAdmin = true ↔ selectedIsAdmin s = true) ∧ (s.isAdmin = true → s.profiles = [])

instance (s : AuthState) : Decidable (AdminInvariant s) := by
  unfold AdminInvariant; infer_instance

/-- The updates under which the administrator invariant is kept: profile
selection and creation at a non-administrator state, a selected profile and
a patch that do not set `is_admin`, and the restored administrator merged
into a state with no profiles. -/
def adminSafe (s : AuthState) : Update → Prop
  | .adminRestored _ => s.profiles = []
  | .profileUpdated updatedProfile => hasOwn updatedProfile "is_admin" = false
  | .profileSelected profile =>
    s.isAdmin = false ∧ strictEq (getPropOpt profile "is_admin") (JVal.bool true) = false
  | .profileCreated _ => s.isAdmin = false
  | _ => True


/-! ## Example states -/

/-- A state with one fetched profile, as left by a non-administrator login. -/
def staleProfilesState : AuthState :=
  { isAuthenticated := true, isLoading := false, user := some [],
    selectedProfile := none, profiles := [[("name", JVal.str "A")]], isAdmin := false,
    isSidebarOpen := false, isInfoOpen := false }

/-- The state of the worked example: selected profile
`{ name: "A", profile_emoji: "🙂" }`, one listed profile
`{ name: "A", profile_emoji: "🙂", age: 5 }`. -/
def exampleState : AuthState :=
  { isAuthenticated := true, isLoading := false, user := some [],
    selectedProfile := some [("name", JVal.str "A"), ("profile_emoji", JVal.str "🙂")],
    profiles := [[("name", JVal.str "A"), ("profile_emoji", JVal.str "🙂"),
                  ("age", JVal.num 5)]],
    isAdmin := false, isSidebarOpen := false, isInfoOpen := false }

/-- The example state with a persisted token. -/
def exampleWorld : World :=
  { token := some "t1", authState := exampleState }

/-- A state whose selected profile has no entry in the list. -/
def unlistedState : AuthState :=
  { isAuthenticated := true, isLoading := false, user := some [],
    selectedProfile := some [("name", JVal.str "A"), ("profile_emoji", JVal.str "🙂")],
    profiles := [[("name", JVal.str "B"), ("profile_emoji", JVal.str "🙂"),
                  ("age", JVal.num 5)]],
    isAdmin := false, isSidebarOpen := false, isInfoOpen := false }

/-- A listed profile that carries `is_admin: true`. -/
def flaggedProfile : Obj :=
  [("name", JVal.str "A"), ("profile_emoji", JVal.str "🙂"), ("is_admin", JVal.bool true)]

/-- The state after a non-administrator logs in, the profiles request returns
`[flaggedProfile]` and that profile is selected. -/
def flaggedSelectedState : AuthState :=
  (run (onSelectProfile (some flaggedProfile))
    (run (handleLogin "t1" [("is_admin", JVal.bool false)] (Reply.ok [flaggedProfile]))
      ⟨none, initialAuthState⟩)).authState

/-- The state after an administrator logs in and the selected profile is
patched with `{ is_admin: false }`. -/
def demotedAdminState : AuthState :=
  (run (handleProfileUpdate [("is_admin", JVal.bool false)])
    (run (handleLogin "t1" [("is_admin", JVal.bool true)] Reply.notOk)
      ⟨none, initialAuthState⟩)).authState

/-! ## The presented view -/

/-- The three modes of the third `return` of `App` (lines 172-219): the
authentication routes, the profile selector and the main application. -/
inductive Mode where
  | unauthenticated
  | profileSelection
  | mainApplication
  deriving DecidableEq, Repr

/-- What `App` returns: the splash screen (line 165), the loading screen
(line 169) or one of the three modes. -/
inductive View where
  | splashScreen
  | loadingScreen
  | mode (m : Mode)
  deriving DecidableEq, Repr

/-- The body of `App` from line 164 on; `showSplash` is the component's
other piece of state (line 27). A `selectedProfile` is truthy when it is
not `null`. -/
def App (showSplash : Bool) (authState : AuthState) : View :=
  if showSplash then View.splashScreen
  else if authState.isLoading then View.loadingScreen
  else if !authState.isAuthenticated then View.mode Mode.unauthenticated
  else if authState.isAdmin || authState.selectedProfile.isSome then
    View.mode Mode.mainApplication
  else View.mode Mode.profileSelection

/-- The view-projection table of the specification (section 4.1), read row
by row: unauthenticated when `isAuthenticated` is false; main application
when `isAuthenticated` and (`isAdmin` or a selected profile); profile
selection otherwise. -/
def specViewMode (s : AuthState) : Mode :=
  match s.isAuthenticated, s.isAdmin, s.selectedProfile with
  | false, _, _ => Mode.unauthenticated
  | true, false, none => Mode.profileSelection
  | true, true, _ => Mode.mainApplication
  | true, _, some _ => Mode.mainApplication

/-! ## Restricted sequences of updates -/

/-- Updates in which `onSelectProfile` and `handleProfileUpdate` act on an
authenticated state, as on the screens that offer them. -/
def whileAuthenticated (s : AuthState) : Update → Prop
  | .profileUpdated _ => s.isAuthenticated = true
  | .profileSelected _ => s.isAuthenticated = true
  | _ => True

/-- Updates in which `onSelectProfile` is given a profile, not `null`. -/
def selectsProfile (_s : AuthState) : Update → Prop
  | .profileSelected profile => profile.isSome = true
  | _ => True

/-- A state in which administrator holds, authentication holds and a
profile is selected. -/
def AdminImpliesSession (s : AuthState) : Prop :=
  s.isAdmin = true → s.isAuthenticated = true ∧ s.selectedProfile.isSome = true

/-- A state in which a selected profile comes with authentication. -/
def SelectedImpliesAuthenticated (s : AuthState) : Prop :=
  s.selectedProfile.isSome = true → s.isAuthenticated = true

/-- The state after an administrator logs in, logs out, and a profile
update `{ name: "X" }` issued from the settings page lands afterwards. -/
def lateUpdateState : AuthState :=
  (run (handleProfileUpdate [("name", JVal.str "X")])
    (run handleLogout
      (run (handleLogin "t1" [("is_admin", JVal.bool true)] Reply.notOk)
        ⟨none, initialAuthState⟩))).authState

/-- The state of the view example without a selected profile: two listed
profiles. -/
def selectingState : AuthState :=
  { isAuthenticated := true, isLoading := false, user := some [],
    selectedProfile := none,
    profiles := [[("name", JVal.str "p1")], [("name", JVal.str "p2")]],
    isAdmin := false, isSidebarOpen := false, isInfoOpen := false }

/-! ## A profiles request in two halves -/

/-- The effects of `fetchUserProfiles` up to its `await fetch(...)`
(line 66). -/
def fetchUserProfilesStart (token : String) : List Effect :=
  [Effect.fetch Endpoint.userProfiles token]

/-- The effects of `fetchUserProfiles` after the awaited exchange has ended
with `reply` (lines 70-85). -/
def fetchUserProfilesResume (userData : Obj) (reply : Reply (List Obj)) : List Effect :=
  [Effect.setAuthState (fetchUserProfilesUpdate userData reply)]

/-- A state with two listed profiles equal on `(name, profile_emoji)` to
the selected one. -/
def duplicateState : AuthState :=
  { isAuthenticated := true, isLoading := false, user := some [],
    selectedProfile := some [("name", JVal.str "A"), ("profile_emoji", JVal.str "🙂")],
    profiles :=
      [[("name", JVal.str "B"), ("profile_emoji", JVal.str "🙂")],
       [("name", JVal.str "A"), ("profile_emoji", JVal.str "🙂"), ("age", JVal.num 5)],
       [("name", JVal.str "A"), ("profile_emoji", JVal.str "🙂"), ("age", JVal.num 7)]],
    isAdmin := false, isSidebarOpen := false, isInfoOpen := false }

/-- The entry `entry` at index `i` is the first of `profiles` that
`findIndex` would accept for the selected profile: it matches on
`(name, profile_emoji)` and no entry before it does. -/
def IsFirstMatch (selectedProfile : Option Obj) (profiles : List Obj) (i : Nat)
    (entry : Obj) : Prop :=
  profiles.get? i = some entry ∧
  matchesSelected selectedProfile entry = true ∧
  ∀ j, j < i → ∀ q, profiles.get? j = some q → matchesSelected selectedProfile q = false

/-! ## Objects: reading after writing -/

theorem lookup_cons_ite (k k' : String) (v : JVal) (es : Obj) :
    List.lookup k' ((k, v) :: es) = if k' = k then some v else List.lookup k' es := by
  by_cases h : k' = k
  · subst h
    simp [List.lookup]
  · have hb : (k' == k) = false := by simp [h]
    simp only [List.lookup, hb, h, if_false]

theorem lookup_setProp (o : Obj) (k k' : String) (v : JVal) :
    (setProp o k v).lookup k' = if k' = k then some v else o.lookup k' := by
  induction o with
  | nil => simp only [setProp, lookup_cons_ite, List.lookup_nil]
  | cons hd tl ih =>
    obtain ⟨k0, v0⟩ := hd
    simp only [setProp, beq_iff_eq]
    by_cases h0 : k0 = k
    · subst h0
      by_cases h : k' = k0
      · simp [h, lookup_cons_ite]
      · simp [h, lookup_cons_ite]
    · by_cases h : k' = k
      · subst h
        have h1 : ¬ k' = k0 := fun e => h0 e.symm
        simp [h0, h1, lookup_cons_ite, ih]
      · simp [h0, h, lookup_cons_ite, ih]

theorem lookup_assign_of_not_hasOwn (src : Obj) (k : String) :
    hasOwn src k = false → ∀ target : Obj, (assign target src).lookup k = target.lookup k := by
  induction src with
  | nil => intro _ target; rfl
  | cons hd tl ih =>
    intro h target
    obtain ⟨k0, v0⟩ := hd
    simp only [hasOwn, List.any_cons, Bool.or_eq_false_iff] at h
    have h0 : ¬ k = k0 := by
      intro e
      have := h.1
      simp [e] at this
    have ht : hasOwn tl k = false := h.2
    have step : assign target ((k0, v0) :: tl) = assign (setProp target k0 v0) tl := rfl
    rw [step, ih ht, lookup_setProp, if_neg h0]

theorem getProp_spread_of_not_hasOwn (a : Option Obj) (b : Obj) (k : String)
    (h : hasOwn b k = false) : getProp (spread a b) k = getPropOpt a k := by
  unfold spread getProp
  rw [lookup_assign_of_not_hasOwn b k h]
  cases a <;> rfl

theorem getProp_spread_of_hasOwn (a : Option Obj) (b : Obj) (k : String)
    (hnd : (b.map Prod.fst).Nodup) (h : hasOwn b k = true) :
    getProp (spread a b) k = getProp b k := by
  unfold spread getProp
  generalize a.getD [] = target
  induction b generalizing target with
  | nil => simp [hasOwn] at h
  | cons hd tl ih =>
    obtain ⟨k0, v0⟩ := hd
    have step : assign target ((k0, v0) :: tl) = assign (setProp target k0 v0) tl := rfl
    simp only [List.map_cons, List.nodup_cons] at hnd
    rw [step, lookup_cons_ite]
    by_cases hk : k = k0
    · subst hk
      have ht : hasOwn tl k = false := by
        simp only [hasOwn, List.any_eq_false, beq_iff_eq]
        intro kv hkv e
        exact hnd.1 (List.mem_map.mpr ⟨kv, hkv, e⟩)
      rw [lookup_assign_of_not_hasOwn tl k ht, lookup_setProp]
      simp
    · have ht : hasOwn tl k = true := by
        simp only [hasOwn, List.any_cons, Bool.or_eq_true, beq_iff_eq] at h
        rcases h with h | h
        · exact absurd h.symm hk
        · simpa [hasOwn] using h
      rw [if_neg hk]
      exact ih hnd.2 ht _

/-! ## `findIndex` -/

theorem findIndex_eq_none (f : Obj → Bool) (l : List Obj) :
    findIndex f l = none ↔ ∀ p ∈ l, f p = false := by
  induction l with
  | nil => simp [findIndex]
  | cons hd tl ih =>
    by_cases h : f hd = true
    · simp [findIndex, h]
    · have hf : f hd = false := by simpa using h
      simp [findIndex, hf, ih]

theorem findIndex_eq_some (f : Obj → Bool) (l : List Obj) (i : Nat) :
    findIndex f l = some i →
      ∃ entry, l.get? i = some entry ∧ f entry = true ∧
        ∀ j, j < i → ∀ q, l.get? j = some q → f q = false := by
  induction l generalizing i with
  | nil => intro h; simp [findIndex] at h
  | cons hd tl ih =>
    intro h
    by_cases hf : f hd = true
    · simp only [findIndex, hf, if_true, Option.some.injEq] at h
      subst h
      exact ⟨hd, rfl, hf, fun j hj => absurd hj (Nat.not_lt_zero j)⟩
    · have hf0 : f hd = false := by simpa using hf
      simp only [findIndex, hf0, Bool.false_eq_true, if_false] at h
      cases hrec : findIndex f tl with
      | none => rw [hrec] at h; simp at h
      | some i0 =>
        rw [hrec] at h
        simp only [Option.map_some', Option.some.injEq] at h
        subst h
        obtain ⟨entry, hget, hentry, hbefore⟩ := ih i0 hrec
        refine ⟨entry, by simpa using hget, hentry, ?_⟩
        intro j hj q hq
        cases j with
        | zero =>
          simp at hq
          subst hq
          exact hf0
        | succ j0 =>
          exact hbefore j0 (Nat.lt_of_succ_lt_succ hj) q (by simpa using hq)

theorem findIndex_isSome_of_mem (f : Obj → Bool) (l : List Obj) (p : Obj)
    (hp : p ∈ l) (hf : f p = true) : ∃ i, findIndex f l = some i := by
  cases h : findIndex f l with
  | none =>
    have := (findIndex_eq_none f l).mp h p hp
    rw [hf] at this
    exact absurd this (by decide)
  | some i => exact ⟨i, rfl⟩

/-! ## Logout -/

/-- C2: whatever the state and the persisted token before, `handleLogout`
ends in one fixed world: no persisted token and the initial state with
`isLoading = false` (unauthenticated, no user, no selected profile, no
profiles, not administrator, both UI flags off). Running it a second time
changes nothing. -/
theorem handleLogout_fixed_state (w : World) :
    run handleLogout w =
      { token := none
        authState :=
          { isAuthenticated := false, isLoading := false, user := none,
            selectedProfile := none, profiles := [], isAdmin := false,
            isSidebarOpen := false, isInfoOpen := false } } ∧
    (run handleLogout w).authState = { initialAuthState with isLoading := false } ∧
    run handleLogout (run handleLogout w) = run handleLogout w := by
  refine ⟨rfl, rfl, rfl⟩

/-! ## Session restoration -/

/-- C3: when a non-empty token is persisted and decodes, and the
current-account request ends in a non-success response, a transport error or
an unreadable body, the restoration removes the token and leaves the state
the restoration without a token leaves; run on the initial state, as on
mount, that state is unauthenticated with `isLoading = false`, no user, no
selected profile, no profiles and `isAdmin = false`. -/
theorem restoreSession_rejected (jwtDecode : String → Option Obj) (token : String)
    (decoded : Obj) (account : Reply Obj) (reply : Reply (List Obj)) (s : AuthState)
    (htoken : token ≠ "") (hdecode : jwtDecode token = some decoded)
    (hfail : account.failed = true) :
    (run (restoreSession jwtDecode account reply ⟨some token, s⟩) ⟨some token, s⟩).token = none ∧
    (run (restoreSession jwtDecode account reply ⟨some token, s⟩) ⟨some token, s⟩).authState =
      (run (restoreSession jwtDecode account reply ⟨none, s⟩) ⟨none, s⟩).authState ∧
    (run (restoreSession jwtDecode account reply ⟨some token, initialAuthState⟩)
        ⟨some token, initialAuthState⟩).authState =
      { isAuthenticated := false, isLoading := false, user := none,
        selectedProfile := none, profiles := [], isAdmin := false,
        isSidebarOpen := false, isInfoOpen := false } := by
  have htrace : ∀ st : AuthState,
      restoreSession jwtDecode account reply ⟨some token, st⟩ =
        [Effect.fetch Endpoint.userProfile token, Effect.removeItem,
         Effect.setAuthState Update.loadingDone] := by
    intro st
    cases account with
    | ok body => simp [Reply.failed] at hfail
    | notOk => simp [restoreSession, initializeAuth, htoken, hdecode]
    | transportError => simp [restoreSession, initializeAuth, htoken, hdecode]
    | unreadableBody => simp [restoreSession, initializeAuth, htoken, hdecode]
  rw [htrace s, htrace initialAuthState]
  exact ⟨rfl, rfl, rfl⟩

/-- An instance of C3: the token `"t1"` decodes and the current-account
request is answered with a non-success response. -/
theorem restoreSession_rejected_example :
    ("t1" ≠ "" ∧ (fun _ : String => some ([] : Obj)) "t1" = some [] ∧
      (Reply.notOk : Reply Obj).failed = true) ∧
    (run (restoreSession (fun _ => some []) Reply.notOk Reply.notOk
        ⟨some "t1", initialAuthState⟩) ⟨some "t1", initialAuthState⟩).token = none ∧
    (run (restoreSession (fun _ => some []) Reply.notOk Reply.notOk
        ⟨some "t1", initialAuthState⟩) ⟨some "t1", initialAuthState⟩).authState =
      (run (restoreSession (fun _ => some []) Reply.notOk Reply.notOk
        ⟨none, initialAuthState⟩) ⟨none, initialAuthState⟩).authState :=
  ⟨⟨by decide, rfl, rfl⟩,
   (restoreSession_rejected (fun _ => some []) "t1" [] Reply.notOk Reply.notOk
     initialAuthState (by decide) rfl rfl).1,
   (restoreSession_rejected (fun _ => some []) "t1" [] Reply.notOk Reply.notOk
     initialAuthState (by decide) rfl rfl).2.1⟩

/-- C4: when no token is persisted (`getItem` returns `null` or the empty
string), the restoration issues no HTTP request, leaves the storage alone
and changes the state in `isLoading` only, which becomes `false`; run on
the initial state, as on mount, it ends with `isAuthenticated = false` and
`isLoading = false`. -/
theorem restoreSession_no_token (jwtDecode : String → Option Obj) (account : Reply Obj)
    (reply : Reply (List Obj)) (stored : Option String) (s : AuthState)
    (hstored : stored = none ∨ stored = some "") :
    requests (restoreSession jwtDecode account reply ⟨stored, s⟩) = [] ∧
    run (restoreSession jwtDecode account reply ⟨stored, s⟩) ⟨stored, s⟩ =
      ⟨stored, { s with isLoading := false }⟩ ∧
    (run (restoreSession jwtDecode account reply ⟨stored, initialAuthState⟩)
        ⟨stored, initialAuthState⟩).authState.isAuthenticated = false ∧
    (run (restoreSession jwtDecode account reply ⟨stored, initialAuthState⟩)
        ⟨stored, initialAuthState⟩).authState.isLoading = false := by
  rcases hstored with h | h <;> subst h <;> exact ⟨rfl, rfl, rfl, rfl⟩

/-- An instance of C4: nothing persisted, the state being the initial one. -/
theorem restoreSession_no_token_example :
    ((none : Option String) = none ∨ (none : Option String) = some "") ∧
    requests (restoreSession (fun _ => none) Reply.notOk Reply.notOk
      ⟨none, initialAuthState⟩) = [] ∧
    run (restoreSession (fun _ => none) Reply.notOk Reply.notOk ⟨none, initialAuthState⟩)
      ⟨none, initialAuthState⟩ = ⟨none, { initialAuthState with isLoading := false }⟩ :=
  ⟨Or.inl rfl,
   (restoreSession_no_token (fun _ => none) Reply.notOk Reply.notOk none initialAuthState
     (Or.inl rfl)).1,
   (restoreSession_no_token (fun _ => none) Reply.notOk Reply.notOk none initialAuthState
     (Or.inl rfl)).2.1⟩

/-! ## Login and profile loading -/

/-- C5: for every world before, every token, every account whose `is_admin`
is falsy and every fetched list `ps`, `handleLogin` followed by the
successful end of its profiles request persists the token and yields
`isAuthenticated = true`, `isLoading = false`, `user` the account,
`selectedProfile = null`, `profiles = ps` and `isAdmin = false`, the UI flags
being kept. -/
theorem handleLogin_profiles_fetched (w : World) (token : String) (userData : Obj)
    (ps : List Obj) (hadmin : truthy (getProp userData "is_admin") = false) :
    run (handleLogin token userData (Reply.ok ps)) w =
      { token := some token
        authState :=
          { isAuthenticated := true, isLoading := false, user := some userData,
            selectedProfile := none, profiles := ps, isAdmin := false,
            isSidebarOpen := w.authState.isSidebarOpen,
            isInfoOpen := w.authState.isInfoOpen } } := by
  simp [handleLogin, hadmin, fetchUserProfiles, fetchUserProfilesUpdate, run, Effect.step,
    Update.apply]

/-- An instance of C5: from the initial state, token `"t1"`, account
`{ is_admin: false }` and one fetched profile. -/
theorem handleLogin_profiles_fetched_example :
    truthy (getProp [("is_admin", JVal.bool false)] "is_admin") = false ∧
    run (handleLogin "t1" [("is_admin", JVal.bool false)]
        (Reply.ok [[("name", JVal.str "A")]])) ⟨none, initialAuthState⟩ =
      { token := some "t1"
        authState :=
          { isAuthenticated := true, isLoading := false,
            user := some [("is_admin", JVal.bool false)],
            selectedProfile := none, profiles := [[("name", JVal.str "A")]],
            isAdmin := false, isSidebarOpen := false, isInfoOpen := false } } :=
  ⟨by decide,
   handleLogin_profiles_fetched ⟨none, initialAuthState⟩ "t1" [("is_admin", JVal.bool false)]
     [[("name", JVal.str "A")]] (by decide)⟩

/-- C6: for every world before and every token, `handleLogin` with an
account whose `is_admin` is truthy performs exactly two effects, the write of
the token and one state update, hence no HTTP request, and yields
`isAuthenticated = true`, `isAdmin = true`, `isLoading = false`,
`profiles = []` and the synthetic administrator profile
`{ name: "Admin", profile_emoji: "👑", is_admin: true }` as selected
profile. -/
theorem handleLogin_admin (w : World) (token : String) (userData : Obj)
    (reply : Reply (List Obj)) (hadmin : truthy (getProp userData "is_admin") = true) :
    handleLogin token userData reply =
      [Effect.setItem token, Effect.setAuthState (Update.adminLoggedIn userData)] ∧
    requests (handleLogin token userData reply) = [] ∧
    run (handleLogin token userData reply) w =
      { token := some token
        authState :=
          { isAuthenticated := true, isLoading := false, user := some userData,
            selectedProfile :=
              some [("name", JVal.str "Admin"), ("profile_emoji", JVal.str "👑"),
                    ("is_admin", JVal.bool true)],
            profiles := [], isAdmin := true,
            isSidebarOpen := w.authState.isSidebarOpen,
            isInfoOpen := w.authState.isInfoOpen } } := by
  have htrace : handleLogin token userData reply =
      [Effect.setItem token, Effect.setAuthState (Update.adminLoggedIn userData)] := by
    simp [handleLogin, hadmin]
  rw [htrace]
  exact ⟨rfl, rfl, rfl⟩

/-- The scenario of C6: from the initial state, token `"t1"` and account
`{ is_admin: true }`. -/
theorem handleLogin_admin_example :
    truthy (getProp [("is_admin", JVal.bool true)] "is_admin") = true ∧
    requests (handleLogin "t1" [("is_admin", JVal.bool true)] Reply.notOk) = [] ∧
    run (handleLogin "t1" [("is_admin", JVal.bool true)] Reply.notOk)
        ⟨none, initialAuthState⟩ =
      { token := some "t1"
        authState :=
          { isAuthenticated := true, isLoading := false,
            user := some [("is_admin", JVal.bool true)],
            selectedProfile :=
              some [("name", JVal.str "Admin"), ("profile_emoji", JVal.str "👑"),
                    ("is_admin", JVal.bool true)],
            profiles := [], isAdmin := true,
            isSidebarOpen := false, isInfoOpen := false } } :=
  ⟨by decide,
   (handleLogin_admin ⟨none, initialAuthState⟩ "t1" [("is_admin", JVal.bool true)]
     Reply.notOk (by decide)).2.1,
   (handleLogin_admin ⟨none, initialAuthState⟩ "t1" [("is_admin", JVal.bool true)]
     Reply.notOk (by decide)).2.2⟩

/-- C7: the administrator branch of `initializeAuth` does not reset
`profiles`. Merged into a state holding one profile, it yields
`isAuthenticated = true`, `isAdmin = true`, `isLoading = false`, the
synthetic administrator profile selected, no profiles request, and the
profile list still holding that profile, where the administrator branch of
`handleLogin` on the same state yields `profiles = []`. -/
theorem restoreSession_admin_keeps_profiles :
    requests (restoreSession (fun _ => some []) (Reply.ok [("is_admin", JVal.bool true)])
        Reply.notOk ⟨some "t1", staleProfilesState⟩) = [Endpoint.userProfile] ∧
    (run (restoreSession (fun _ => some []) (Reply.ok [("is_admin", JVal.bool true)])
        Reply.notOk ⟨some "t1", staleProfilesState⟩) ⟨some "t1", staleProfilesState⟩).authState =
      { isAuthenticated := true, isLoading := false, user := some [],
        selectedProfile := some adminProfile, profiles := [[("name", JVal.str "A")]],
        isAdmin := true, isSidebarOpen := false, isInfoOpen := false } ∧
    (run (handleLogin "t1" [("is_admin", JVal.bool true)] Reply.notOk)
        ⟨some "t1", staleProfilesState⟩).authState.profiles = [] := by
  decide

/-- C8: when the profiles request of `fetchUserProfiles` ends in a
non-success response, a transport error or an unreadable body, the state
after equals the state before except for `isLoading = false`, and the
persisted token is kept. -/
theorem fetchUserProfiles_failure (w : World) (token : String) (userData : Obj)
    (reply : Reply (List Obj)) (hfail : reply.failed = true) :
    run (fetchUserProfiles token userData reply) w =
      { token := w.token
        authState :=
          { isAuthenticated := w.authState.isAuthenticated, isLoading := false,
            user := w.authState.user, selectedProfile := w.authState.selectedProfile,
            profiles := w.authState.profiles, isAdmin := w.authState.isAdmin,
            isSidebarOpen := w.authState.isSidebarOpen,
            isInfoOpen := w.authState.isInfoOpen } } := by
  cases reply with
  | ok body => simp [Reply.failed] at hfail
  | notOk => rfl
  | transportError => rfl
  | unreadableBody => rfl

/-- An instance of C8: the profiles request fails at transport level while
a profile is selected. -/
theorem fetchUserProfiles_failure_example :
    (Reply.transportError : Reply (List Obj)).failed = true ∧
    run (fetchUserProfiles "t1" [] Reply.transportError) exampleWorld =
      { token := some "t1", authState := exampleState } :=
  ⟨rfl, fetchUserProfiles_failure exampleWorld "t1" [] Reply.transportError rfl⟩

/-! ## Profile update -/

/-- C9: when some entry of `profiles` matches the selected profile on
`(name, profile_emoji)`, `handleProfileUpdate(patch)` sets the selected
profile to the old one overridden by the patch and replaces the first
matching entry, at its index, by that entry overridden by the patch;
nothing else changes. -/
theorem handleProfileUpdate_matching (w : World) (patch : Obj)
    (hmatch : ∃ p ∈ w.authState.profiles,
      matchesSelected w.authState.selectedProfile p = true) :
    ∃ i entry,
      w.authState.profiles.get? i = some entry ∧
      matchesSelected w.authState.selectedProfile entry = true ∧
      (∀ j, j < i → ∀ q, w.authState.profiles.get? j = some q →
        matchesSelected w.authState.selectedProfile q = false) ∧
      run (handleProfileUpdate patch) w =
        { token := w.token
          authState :=
            { isAuthenticated := w.authState.isAuthenticated,
              isLoading := w.authState.isLoading, user := w.authState.user,
              selectedProfile := some (spread w.authState.selectedProfile patch),
              profiles := w.authState.profiles.set i (spread (some entry) patch),
              isAdmin := w.authState.isAdmin,
              isSidebarOpen := w.authState.isSidebarOpen,
              isInfoOpen := w.authState.isInfoOpen } } := by
  obtain ⟨p, hp, hpm⟩ := hmatch
  obtain ⟨i, hi⟩ := findIndex_isSome_of_mem _ _ p hp hpm
  obtain ⟨entry, hget, hentry, hbefore⟩ := findIndex_eq_some _ _ i hi
  refine ⟨i, entry, hget, hentry, hbefore, ?_⟩
  simp only [handleProfileUpdate, run, List.foldl, Effect.step, Update.apply, profileUpdater,
    hi, hget]

/-- The worked example of C9: with selected profile
`{ name: "A", profile_emoji: "🙂" }`, listed profile
`{ name: "A", profile_emoji: "🙂", age: 5 }` and patch `{ age: 6 }`, the
selected profile and the entry at index 0 both read `age = 6` afterwards. -/
theorem handleProfileUpdate_matching_example :
    (∃ p ∈ exampleWorld.authState.profiles,
      matchesSelected exampleWorld.authState.selectedProfile p = true) ∧
    (∃ i entry,
      exampleWorld.authState.profiles.get? i = some entry ∧
      matchesSelected exampleWorld.authState.selectedProfile entry = true ∧
      (∀ j, j < i → ∀ q, exampleWorld.authState.profiles.get? j = some q →
        matchesSelected exampleWorld.authState.selectedProfile q = false) ∧
      run (handleProfileUpdate [("age", JVal.num 6)]) exampleWorld =
        { token := exampleWorld.token
          authState :=
            { isAuthenticated := exampleWorld.authState.isAuthenticated,
              isLoading := exampleWorld.authState.isLoading,
              user := exampleWorld.authState.user,
              selectedProfile :=
                some (spread exampleWorld.authState.selectedProfile [("age", JVal.num 6)]),
              profiles :=
                exampleWorld.authState.profiles.set i
                  (spread (some entry) [("age", JVal.num 6)]),
              isAdmin := exampleWorld.authState.isAdmin,
              isSidebarOpen := exampleWorld.authState.isSidebarOpen,
              isInfoOpen := exampleWorld.authState.isInfoOpen } }) ∧
    getPropOpt (run (handleProfileUpdate [("age", JVal.num 6)])
      exampleWorld).authState.selectedProfile "age" = JVal.num 6 ∧
    getPropOpt ((run (handleProfileUpdate [("age", JVal.num 6)])
      exampleWorld).authState.profiles.get? 0) "age" = JVal.num 6 :=
  ⟨⟨_, List.mem_cons_self _ _, by decide⟩,
   handleProfileUpdate_matching exampleWorld [("age", JVal.num 6)]
     ⟨_, List.mem_cons_self _ _, by decide⟩,
   by decide, by decide⟩

/-- C10: when no entry of `profiles` matches the selected profile on
`(name, profile_emoji)`, `handleProfileUpdate(patch)` leaves `profiles` as it
is and sets the selected profile to the old one overridden by the patch;
nothing else changes. -/
theorem handleProfileUpdate_no_match (w : World) (patch : Obj)
    (hnone : ∀ p ∈ w.authState.profiles,
      matchesSelected w.authState.selectedProfile p = false) :
    run (handleProfileUpdate patch) w =
      { token := w.token
        authState :=
          { isAuthenticated := w.authState.isAuthenticated,
            isLoading := w.authState.isLoading, user := w.authState.user,
            selectedProfile := some (spread w.authState.selectedProfile patch),
            profiles := w.authState.profiles,
            isAdmin := w.authState.isAdmin,
            isSidebarOpen := w.authState.isSidebarOpen,
            isInfoOpen := w.authState.isInfoOpen } } := by
  have hidx := (findIndex_eq_none _ _).mpr hnone
  simp only [handleProfileUpdate, run, List.foldl, Effect.step, Update.apply, profileUpdater,
    hidx]

/-- An instance of C10: the selected profile `A` is not listed, the patch
`{ age: 6 }` reaches the selected profile and the list keeps its entry. -/
theorem handleProfileUpdate_no_match_example :
    (∀ p ∈ unlistedState.profiles,
      matchesSelected unlistedState.selectedProfile p = false) ∧
    (run (handleProfileUpdate [("age", JVal.num 6)]) ⟨none, unlistedState⟩).authState.profiles =
      unlistedState.profiles ∧
    getPropOpt (run (handleProfileUpdate [("age", JVal.num 6)])
      ⟨none, unlistedState⟩).authState.selectedProfile "age" = JVal.num 6 := by
  have hn : ∀ p ∈ (World.mk none unlistedState).authState.profiles,
      matchesSelected (World.mk none unlistedState).authState.selectedProfile p = false := by
    decide
  have hrun := handleProfileUpdate_no_match ⟨none, unlistedState⟩ [("age", JVal.num 6)] hn
  refine ⟨hn, ?_, ?_⟩
  · rw [hrun]
  · rw [hrun]; decide

/-! ## The administrator invariant -/

theorem selectedIsAdmin_profileUpdater (patch : Obj) (s : AuthState)
    (h : hasOwn patch "is_admin" = false) :
    selectedIsAdmin (profileUpdater patch s) = selectedIsAdmin s := by
  unfold selectedIsAdmin
  have : getPropOpt (profileUpdater patch s).selectedProfile "is_admin" =
      getPropOpt s.selectedProfile "is_admin" :=
    getProp_spread_of_not_hasOwn s.selectedProfile patch "is_admin" h
  rw [this]

theorem profiles_profileUpdater_of_nil (patch : Obj) (s : AuthState)
    (h : s.profiles = []) : (profileUpdater patch s).profiles = [] := by
  simp [profileUpdater, h, findIndex]

/-- C1, contradicted: two states reached by the handlers break the
administrator invariant. Selecting a fetched profile that carries
`is_admin: true` leaves `isAdmin = false`, and patching the administrator
profile with `{ is_admin: false }` leaves `isAdmin = true`. -/
theorem adminInvariant_broken :
    (Reachable flaggedSelectedState ∧ ¬ AdminInvariant flaggedSelectedState) ∧
    (Reachable demotedAdminState ∧ ¬ AdminInvariant demotedAdminState) := by
  refine ⟨⟨?_, by decide⟩, ⟨?_, by decide⟩⟩
  · have h : flaggedSelectedState =
        (Update.profileSelected (some flaggedProfile)).apply
          ((Update.profilesFetched [("is_admin", JVal.bool false)] [flaggedProfile]).apply
            initialAuthState) := by decide
    rw [h]
    exact ReachableBy.step _ (ReachableBy.step _ ReachableBy.init trivial) trivial
  · have h : demotedAdminState =
        (Update.profileUpdated [("is_admin", JVal.bool false)]).apply
          ((Update.adminLoggedIn [("is_admin", JVal.bool true)]).apply initialAuthState) := by
      decide
    rw [h]
    exact ReachableBy.step _ (ReachableBy.step _ ReachableBy.init trivial) trivial

/-- C1, amended: the administrator invariant holds in every state reached
from the initial one by updates of the handlers in any order, provided that
`onSelectProfile` and `onCreateProfile` act on a state with
`isAdmin = false`, the profile given to `onSelectProfile` does not have
`is_admin === true`, the patch given to `handleProfileUpdate` has no
`is_admin` property, and the administrator branch of `initializeAuth` merges
into a state with no profiles. -/
theorem adminInvariant_of_adminSafe (s : AuthState) (h : ReachableBy adminSafe s) :
    AdminInvariant s := by
  induction h with
  | init => decide
  | @step prev u _ hsafe ih =>
    obtain ⟨hiff, hnil⟩ := ih
    cases u with
    | infoOpen isOpen => exact ⟨hiff, hnil⟩
    | sidebarOpen isOpen => exact ⟨hiff, hnil⟩
    | loggedOut =>
      refine ⟨⟨fun hadm => ?_, fun hsel => ?_⟩, fun _ => rfl⟩
      · exact absurd (show false = true from hadm) (by decide)
      · exact absurd (show false = true from hsel) (by decide)
    | profilesFetched userData profiles =>
      refine ⟨?_, ?_⟩
      · simp [Update.apply, selectedIsAdmin, getPropOpt, strictEq]
      · simp [Update.apply]
    | loadingDone => exact ⟨hiff, hnil⟩
    | adminLoggedIn userData =>
      exact ⟨⟨fun _ => rfl, fun _ => rfl⟩, fun _ => rfl⟩
    | adminRestored decoded =>
      exact ⟨⟨fun _ => rfl, fun _ => rfl⟩, fun _ => hsafe⟩
    | profileUpdated updatedProfile =>
      refine ⟨?_, ?_⟩
      · show prev.isAdmin = true ↔ selectedIsAdmin (profileUpdater updatedProfile prev) = true
        rw [selectedIsAdmin_profileUpdater updatedProfile prev hsafe]
        exact hiff
      · intro hadm
        exact profiles_profileUpdater_of_nil updatedProfile prev (hnil hadm)
    | profileSelected profile =>
      obtain ⟨hna, hflag⟩ := hsafe
      refine ⟨?_, ?_⟩
      · show prev.isAdmin = true ↔
          strictEq (getPropOpt profile "is_admin") (JVal.bool true) = true
        rw [hna, hflag]
      · intro hadm
        have : prev.isAdmin = true := hadm
        rw [hna] at this
        exact absurd this (by decide)
    | profileCreated newProfile =>
      have hna : prev.isAdmin = false := hsafe
      refine ⟨hiff, ?_⟩
      intro hadm
      have : prev.isAdmin = true := hadm
      rw [hna] at this
      exact absurd this (by decide)

/-- An instance of the amended C1: the state after an administrator login. -/
theorem adminInvariant_of_adminSafe_example :
    ReachableBy adminSafe ((Update.adminLoggedIn []).apply initialAuthState) ∧
    AdminInvariant ((Update.adminLoggedIn []).apply initialAuthState) :=
  ⟨ReachableBy.step _ ReachableBy.init trivial,
   adminInvariant_of_adminSafe _ (ReachableBy.step _ ReachableBy.init trivial)⟩

/-! ## The presented view -/

/-- C11, contradicted: the initial state is reachable, the table of the
specification maps it to the unauthenticated mode, and `App` presents the
loading screen (or the splash screen) for it. -/
theorem App_initial_not_table :
    Reachable initialAuthState ∧
    specViewMode initialAuthState = Mode.unauthenticated ∧
    App false initialAuthState = View.loadingScreen ∧
    App true initialAuthState = View.splashScreen ∧
    App false initialAuthState ≠ View.mode (specViewMode initialAuthState) ∧
    App true initialAuthState ≠ View.mode (specViewMode initialAuthState) :=
  ⟨ReachableBy.init, by decide, by decide, by decide, by decide, by decide⟩

/-- C11, amended: for every state, once the splash screen is over `App`
presents the loading screen while `isLoading` is true, and when `isLoading`
is false it presents the mode the table of the specification gives:
unauthenticated when `isAuthenticated` is false, profile selection when
authenticated, not administrator and nothing selected, main application
when authenticated and administrator or a profile selected. While the
splash screen is on, `App` presents the splash screen. -/
theorem App_eq_specViewMode (s : AuthState) :
    (s.isLoading = false → App false s = View.mode (specViewMode s)) ∧
    (s.isLoading = true → App false s = View.loadingScreen) ∧
    App true s = View.splashScreen := by
  obtain ⟨auth, loading, user, sel, profiles, admin, sidebar, info⟩ := s
  refine ⟨?_, ?_, rfl⟩
  · intro hloaded
    simp only at hloaded
    subst hloaded
    cases auth <;> cases admin <;> cases sel <;> rfl
  · intro hloading
    simp only at hloading
    subst hloading
    rfl

/-- The example of C11: authenticated, not administrator, two profiles
listed. Without a selected profile the mode is profile selection, with the
first one selected it is the main application; the same state with
`isLoading = true` is presented as the loading screen. -/
theorem App_eq_specViewMode_example :
    selectingState.isLoading = false ∧
    App false selectingState = View.mode (specViewMode selectingState) ∧
    App false selectingState = View.mode Mode.profileSelection ∧
    App false { selectingState with selectedProfile := some [("name", JVal.str "p1")] } =
      View.mode Mode.mainApplication ∧
    App false { selectingState with isLoading := true } = View.loadingScreen ∧
    App true selectingState = View.splashScreen :=
  ⟨rfl, (App_eq_specViewMode selectingState).1 rfl, by decide, by decide,
   (App_eq_specViewMode { selectingState with isLoading := true }).2.1 rfl,
   (App_eq_specViewMode selectingState).2.2⟩

/-! ## Selection and authentication -/

/-- C12, contradicted: after an administrator login, a logout and a profile
update that lands afterwards, a profile is selected in a state that is not
authenticated. -/
theorem selectedImpliesAuthenticated_broken :
    Reachable lateUpdateState ∧
    lateUpdateState.selectedProfile = some [("name", JVal.str "X")] ∧
    lateUpdateState.isAuthenticated = false ∧
    ¬ SelectedImpliesAuthenticated lateUpdateState := by
  refine ⟨?_, by decide, by decide, ?_⟩
  · have h : lateUpdateState =
        (Update.profileUpdated [("name", JVal.str "X")]).apply
          (Update.loggedOut.apply
            ((Update.adminLoggedIn [("is_admin", JVal.bool true)]).apply
              initialAuthState)) := by decide
    rw [h]
    exact ReachableBy.step _
      (ReachableBy.step _ (ReachableBy.step _ ReachableBy.init trivial) trivial) trivial
  · intro h
    exact absurd (h (by decide)) (by decide)

/-- C12, amended: in every state reached from the initial one by updates of
the handlers in any order, `onSelectProfile` and `handleProfileUpdate`
acting on authenticated states only, a selected profile implies
`isAuthenticated = true`. -/
theorem selectedImpliesAuthenticated_of_whileAuthenticated (s : AuthState)
    (h : ReachableBy whileAuthenticated s) : SelectedImpliesAuthenticated s := by
  induction h with
  | init => intro hsel; exact absurd hsel (by decide)
  | @step prev u _ hallowed ih =>
    cases u with
    | infoOpen isOpen => exact ih
    | sidebarOpen isOpen => exact ih
    | loggedOut => intro hsel; exact absurd (show false = true from hsel) (by decide)
    | profilesFetched userData profiles => intro _; rfl
    | loadingDone => exact ih
    | adminLoggedIn userData => intro _; rfl
    | adminRestored decoded => intro _; rfl
    | profileUpdated updatedProfile => intro _; exact hallowed
    | profileSelected profile => intro _; exact hallowed
    | profileCreated newProfile => exact ih

/-- An instance of the amended C12: a non-administrator logs in, one
profile is fetched and selected. -/
theorem selectedImpliesAuthenticated_example :
    ReachableBy whileAuthenticated
      ((Update.profileSelected (some [("name", JVal.str "A")])).apply
        ((Update.profilesFetched [] [[("name", JVal.str "A")]]).apply initialAuthState)) ∧
    SelectedImpliesAuthenticated
      ((Update.profileSelected (some [("name", JVal.str "A")])).apply
        ((Update.profilesFetched [] [[("name", JVal.str "A")]]).apply initialAuthState)) :=
  ⟨ReachableBy.step _ (ReachableBy.step _ ReachableBy.init trivial) rfl,
   selectedImpliesAuthenticated_of_whileAuthenticated _
     (ReachableBy.step _ (ReachableBy.step _ ReachableBy.init trivial) rfl)⟩

/-- C20: in every state reached from the initial one by updates of the
handlers in any order, `onSelectProfile` being given a profile and not
`null`, `isAdmin = true` implies `isAuthenticated = true` and a selected
profile. -/
theorem adminImpliesSession_of_selectsProfile (s : AuthState)
    (h : ReachableBy selectsProfile s) : AdminImpliesSession s := by
  induction h with
  | init => intro hadm; exact absurd hadm (by decide)
  | @step prev u _ hallowed ih =>
    cases u with
    | infoOpen isOpen => exact ih
    | sidebarOpen isOpen => exact ih
    | loggedOut => intro hadm; exact absurd (show false = true from hadm) (by decide)
    | profilesFetched userData profiles =>
      intro hadm; exact absurd (show false = true from hadm) (by decide)
    | loadingDone => exact ih
    | adminLoggedIn userData => intro _; exact ⟨rfl, rfl⟩
    | adminRestored decoded => intro _; exact ⟨rfl, rfl⟩
    | profileUpdated updatedProfile => intro hadm; exact ⟨(ih hadm).1, rfl⟩
    | profileSelected profile => intro hadm; exact ⟨(ih hadm).1, hallowed⟩
    | profileCreated newProfile => exact ih

/-- An instance of C20: an administrator logs in and patches the profile
with `{ name: "Root" }`. -/
theorem adminImpliesSession_example :
    ReachableBy selectsProfile
      ((Update.profileUpdated [("name", JVal.str "Root")]).apply
        ((Update.adminLoggedIn []).apply initialAuthState)) ∧
    AdminImpliesSession
      ((Update.profileUpdated [("name", JVal.str "Root")]).apply
        ((Update.adminLoggedIn []).apply initialAuthState)) :=
  ⟨ReachableBy.step _ (ReachableBy.step _ ReachableBy.init trivial) trivial,
   adminImpliesSession_of_selectsProfile _
     (ReachableBy.step _ (ReachableBy.step _ ReachableBy.init trivial) trivial)⟩

/-! ## One restoration attempt -/

/-- C13: whatever is persisted, whatever the decoder and the two exchanges
give (no token; a token that does not decode; the account request failing;
an administrator account; another account with the profiles request
succeeding or failing), `initializeAuth` applies exactly one state update,
and the state after it has `isLoading = false`. -/
theorem initializeAuth_one_update (stored : Option String)
    (jwtDecode : String → Option Obj) (account : Reply Obj) (reply : Reply (List Obj))
    (s : AuthState) :
    ∃ u, updates (initializeAuth stored jwtDecode account reply) = [u] ∧
      (run (initializeAuth stored jwtDecode account reply) ⟨stored, s⟩).authState = u.apply s ∧
      (u.apply s).isLoading = false := by
  cases stored with
  | none => exact ⟨Update.loadingDone, rfl, rfl, rfl⟩
  | some token =>
    by_cases htoken : token = ""
    · subst htoken
      exact ⟨Update.loadingDone, rfl, rfl, rfl⟩
    · cases hdecode : jwtDecode token with
      | none =>
        refine ⟨Update.loadingDone, ?_, ?_, rfl⟩ <;>
          simp [initializeAuth, htoken, hdecode, updates, run, Effect.step]
      | some decoded =>
        cases account with
        | ok userData =>
          by_cases hadmin : truthy (getProp userData "is_admin") = true
          · refine ⟨Update.adminRestored decoded, ?_, ?_, rfl⟩ <;>
              simp [initializeAuth, htoken, hdecode, hadmin, updates, run, Effect.step]
          · cases reply with
            | ok ps =>
              refine ⟨Update.profilesFetched decoded ps, ?_, ?_, rfl⟩ <;>
                simp [initializeAuth, htoken, hdecode, hadmin, updates, run, Effect.step,
                  fetchUserProfiles, fetchUserProfilesUpdate]
            | notOk =>
              refine ⟨Update.loadingDone, ?_, ?_, rfl⟩ <;>
                simp [initializeAuth, htoken, hdecode, hadmin, updates, run, Effect.step,
                  fetchUserProfiles, fetchUserProfilesUpdate]
            | transportError =>
              refine ⟨Update.loadingDone, ?_, ?_, rfl⟩ <;>
                simp [initializeAuth, htoken, hdecode, hadmin, updates, run, Effect.step,
                  fetchUserProfiles, fetchUserProfilesUpdate]
            | unreadableBody =>
              refine ⟨Update.loadingDone, ?_, ?_, rfl⟩ <;>
                simp [initializeAuth, htoken, hdecode, hadmin, updates, run, Effect.step,
                  fetchUserProfiles, fetchUserProfilesUpdate]
        | notOk =>
          refine ⟨Update.loadingDone, ?_, ?_, rfl⟩ <;>
            simp [initializeAuth, htoken, hdecode, updates, run, Effect.step]
        | transportError =>
          refine ⟨Update.loadingDone, ?_, ?_, rfl⟩ <;>
            simp [initializeAuth, htoken, hdecode, updates, run, Effect.step]
        | unreadableBody =>
          refine ⟨Update.loadingDone, ?_, ?_, rfl⟩ <;>
            simp [initializeAuth, htoken, hdecode, updates, run, Effect.step]

/-- C14: a persisted token that does not decode is handled as one the
identity service rejects. Both runs end in the same world: the token
removed and the state changed in `isLoading` only; from the initial state
that is the unauthenticated state with `isLoading = false`. -/
theorem restoreSession_undecodable (token : String) (decoded : Obj)
    (failing decoding : String → Option Obj) (account rejected : Reply Obj)
    (reply : Reply (List Obj)) (s : AuthState)
    (htoken : token ≠ "") (hfailing : failing token = none)
    (hdecoding : decoding token = some decoded) (hrejected : rejected.failed = true) :
    run (restoreSession failing account reply ⟨some token, s⟩) ⟨some token, s⟩ =
      run (restoreSession decoding rejected reply ⟨some token, s⟩) ⟨some token, s⟩ ∧
    run (restoreSession failing account reply ⟨some token, s⟩) ⟨some token, s⟩ =
      ⟨none, { s with isLoading := false }⟩ ∧
    (run (restoreSession failing account reply ⟨some token, initialAuthState⟩)
        ⟨some token, initialAuthState⟩).authState =
      { isAuthenticated := false, isLoading := false, user := none,
        selectedProfile := none, profiles := [], isAdmin := false,
        isSidebarOpen := false, isInfoOpen := false } := by
  have hleft : ∀ st : AuthState, restoreSession failing account reply ⟨some token, st⟩ =
      [Effect.removeItem, Effect.setAuthState Update.loadingDone] := by
    intro st
    simp [restoreSession, initializeAuth, htoken, hfailing]
  have hright : restoreSession decoding rejected reply ⟨some token, s⟩ =
      [Effect.fetch Endpoint.userProfile token, Effect.removeItem,
       Effect.setAuthState Update.loadingDone] := by
    cases rejected with
    | ok body => simp [Reply.failed] at hrejected
    | notOk => simp [restoreSession, initializeAuth, htoken, hdecoding]
    | transportError => simp [restoreSession, initializeAuth, htoken, hdecoding]
    | unreadableBody => simp [restoreSession, initializeAuth, htoken, hdecoding]
  rw [hleft s, hleft initialAuthState, hright]
  exact ⟨rfl, rfl, rfl⟩

/-- An instance of C14: the token `"t1"` once with a decoder that throws,
once with one that succeeds and a non-success account response. -/
theorem restoreSession_undecodable_example :
    ("t1" ≠ "" ∧ (fun _ : String => (none : Option Obj)) "t1" = none ∧
      (fun _ : String => some ([] : Obj)) "t1" = some [] ∧
      (Reply.notOk : Reply Obj).failed = true) ∧
    run (restoreSession (fun _ => none) (Reply.ok []) Reply.notOk
        ⟨some "t1", initialAuthState⟩) ⟨some "t1", initialAuthState⟩ =
      run (restoreSession (fun _ => some []) Reply.notOk Reply.notOk
        ⟨some "t1", initialAuthState⟩) ⟨some "t1", initialAuthState⟩ :=
  ⟨⟨by decide, rfl, rfl, rfl⟩,
   (restoreSession_undecodable "t1" [] (fun _ => none) (fun _ => some []) (Reply.ok [])
     Reply.notOk Reply.notOk initialAuthState (by decide) rfl rfl rfl).1⟩

/-! ## Profile creation and selection -/

/-- C15: for every world and every profile `p`, `onCreateProfile(p)` yields
the old `profiles` with `p` appended as last element and leaves the
selected profile, every other field and the persisted token as they
were. -/
theorem onCreateProfile_appends (w : World) (p : Obj) :
    run (onCreateProfile p) w =
      { token := w.token
        authState :=
          { isAuthenticated := w.authState.isAuthenticated,
            isLoading := w.authState.isLoading, user := w.authState.user,
            selectedProfile := w.authState.selectedProfile,
            profiles := w.authState.profiles ++ [p],
            isAdmin := w.authState.isAdmin,
            isSidebarOpen := w.authState.isSidebarOpen,
            isInfoOpen := w.authState.isInfoOpen } } ∧
    (run (onCreateProfile p) w).authState.profiles.getLast? = some p ∧
    (run (onCreateProfile p) w).authState.profiles.take w.authState.profiles.length =
      w.authState.profiles := by
  refine ⟨rfl, ?_, ?_⟩
  · show (w.authState.profiles ++ [p]).getLast? = some p
    simp
  · show (w.authState.profiles ++ [p]).take w.authState.profiles.length = w.authState.profiles
    simp

/-- C16, contradicted: with an empty profile list, `onSelectProfile` given
`{ name: "X" }` selects it although it is no entry of `profiles`. -/
theorem onSelectProfile_not_listed :
    (run (onSelectProfile (some [("name", JVal.str "X")]))
      ⟨some "t1", Update.apply (Update.profilesFetched [] []) initialAuthState⟩
      ).authState.selectedProfile = some [("name", JVal.str "X")] ∧
    (run (onSelectProfile (some [("name", JVal.str "X")]))
      ⟨some "t1", Update.apply (Update.profilesFetched [] []) initialAuthState⟩
      ).authState.profiles = [] ∧
    ¬ ∃ entry ∈ (run (onSelectProfile (some [("name", JVal.str "X")]))
        ⟨some "t1", Update.apply (Update.profilesFetched [] []) initialAuthState⟩
        ).authState.profiles,
      (run (onSelectProfile (some [("name", JVal.str "X")]))
        ⟨some "t1", Update.apply (Update.profilesFetched [] []) initialAuthState⟩
        ).authState.selectedProfile = some entry := by
  refine ⟨rfl, rfl, ?_⟩
  rintro ⟨entry, hmem, -⟩
  exact absurd hmem (List.not_mem_nil entry)

/-- C16, amended: for every world and every `p` given to `onSelectProfile`,
the selected profile becomes `p` itself and no other field changes; it is
an entry of the current `profiles` whenever `p` is one. -/
theorem onSelectProfile_sets_given (w : World) (p : Option Obj) :
    run (onSelectProfile p) w =
      { token := w.token
        authState :=
          { isAuthenticated := w.authState.isAuthenticated,
            isLoading := w.authState.isLoading, user := w.authState.user,
            selectedProfile := p,
            profiles := w.authState.profiles,
            isAdmin := w.authState.isAdmin,
            isSidebarOpen := w.authState.isSidebarOpen,
            isInfoOpen := w.authState.isInfoOpen } } ∧
    (∀ entry, p = some entry → entry ∈ w.authState.profiles →
      ∃ e ∈ (run (onSelectProfile p) w).authState.profiles,
        (run (onSelectProfile p) w).authState.selectedProfile = some e) := by
  refine ⟨rfl, ?_⟩
  intro entry hp hmem
  exact ⟨entry, hmem, hp⟩

/-- An instance of the amended C16: selecting the listed profile of the
worked example. -/
theorem onSelectProfile_sets_given_example :
    (run (onSelectProfile (some [("name", JVal.str "p1")]))
      ⟨some "t1", selectingState⟩).authState.selectedProfile =
      some [("name", JVal.str "p1")] ∧
    (run (onSelectProfile (some [("name", JVal.str "p1")]))
      ⟨some "t1", selectingState⟩).authState.profiles = selectingState.profiles :=
  ⟨congrArg (fun x => x.authState.selectedProfile)
     (onSelectProfile_sets_given ⟨some "t1", selectingState⟩
       (some [("name", JVal.str "p1")])).1,
   congrArg (fun x => x.authState.profiles)
     (onSelectProfile_sets_given ⟨some "t1", selectingState⟩
       (some [("name", JVal.str "p1")])).1⟩

/-! ## A profiles reply that arrives after logout -/

/-- C17: `handleLogin` with a non-administrator account is the token write
and the start of `fetchUserProfiles`, then, once the reply is there, its
resumption. When `handleLogout` runs between the two and the reply is a
list `ps`, the final state has `isAuthenticated = true` and `profiles = ps`
while no token is persisted. -/
theorem late_profiles_after_logout (w : World) (token : String) (userData : Obj)
    (ps : List Obj) (hadmin : truthy (getProp userData "is_admin") = false) :
    handleLogin token userData (Reply.ok ps) =
      (Effect.setItem token :: fetchUserProfilesStart token) ++
        fetchUserProfilesResume userData (Reply.ok ps) ∧
    (run (Effect.setItem token :: fetchUserProfilesStart token) w).token = some token ∧
    (run (fetchUserProfilesResume userData (Reply.ok ps))
      (run handleLogout
        (run (Effect.setItem token :: fetchUserProfilesStart token) w))) =
      { token := none
        authState :=
          { isAuthenticated := true, isLoading := false, user := some userData,
            selectedProfile := none, profiles := ps, isAdmin := false,
            isSidebarOpen := false, isInfoOpen := false } } := by
  refine ⟨?_, rfl, rfl⟩
  simp [handleLogin, hadmin, fetchUserProfiles, fetchUserProfilesStart,
    fetchUserProfilesResume]

/-- An instance of C17: from the initial state, token `"t1"`, account
`{ is_admin: false }` and one profile in the late reply. -/
theorem late_profiles_after_logout_example :
    truthy (getProp [("is_admin", JVal.bool false)] "is_admin") = false ∧
    (run (fetchUserProfilesResume [("is_admin", JVal.bool false)]
        (Reply.ok [[("name", JVal.str "A")]]))
      (run handleLogout
        (run (Effect.setItem "t1" :: fetchUserProfilesStart "t1")
          ⟨none, initialAuthState⟩))) =
      { token := none
        authState :=
          { isAuthenticated := true, isLoading := false,
            user := some [("is_admin", JVal.bool false)],
            selectedProfile := none, profiles := [[("name", JVal.str "A")]],
            isAdmin := false, isSidebarOpen := false, isInfoOpen := false } } :=
  ⟨by decide,
   (late_profiles_after_logout ⟨none, initialAuthState⟩ "t1" [("is_admin", JVal.bool false)]
     [[("name", JVal.str "A")]] (by decide)).2.2⟩

/-! ## Profile update: one entry, and the link to the selection -/

theorem strictEq_eq_true (a b : JVal) (h : strictEq a b = true) : a = b := by
  cases a <;> cases b <;> simp_all [strictEq]

theorem strictEq_self (a : JVal) (h : a ≠ JVal.nan) : strictEq a a = true := by
  cases a <;> simp_all [strictEq]

theorem getProp_setProp (o : Obj) (k k' : String) (v : JVal) :
    getProp (setProp o k v) k' = if k' = k then v else getProp o k' := by
  unfold getProp
  rw [lookup_setProp]
  split <;> rfl

theorem getProp_assign_congr (src : Obj) (k : String) :
    ∀ t1 t2 : Obj, getProp t1 k = getProp t2 k →
      getProp (assign t1 src) k = getProp (assign t2 src) k := by
  induction src with
  | nil => intro t1 t2 h; exact h
  | cons hd tl ih =>
    intro t1 t2 h
    obtain ⟨k0, v0⟩ := hd
    have step : ∀ t : Obj, assign t ((k0, v0) :: tl) = assign (setProp t k0 v0) tl :=
      fun _ => rfl
    rw [step t1, step t2]
    apply ih
    rw [getProp_setProp, getProp_setProp, h]

theorem isFirstMatch_unique (sel : Option Obj) (profiles : List Obj) (i j : Nat)
    (p q : Obj) (hi : IsFirstMatch sel profiles i p) (hj : IsFirstMatch sel profiles j q) :
    i = j ∧ p = q := by
  obtain ⟨hgi, hmi, hbi⟩ := hi
  obtain ⟨hgj, hmj, hbj⟩ := hj
  have hij : i = j := by
    rcases Nat.lt_trichotomy i j with hlt | heq | hgt
    · have := hbj i hlt p hgi
      rw [hmi] at this
      exact absurd this (by decide)
    · exact heq
    · have := hbi j hgt q hgj
      rw [hmj] at this
      exact absurd this (by decide)
  subst hij
  rw [hgi] at hgj
  exact ⟨rfl, Option.some.inj hgj⟩

theorem findIndex_of_isFirstMatch (sel : Option Obj) (profiles : List Obj) (i : Nat)
    (entry : Obj) (h : IsFirstMatch sel profiles i entry) :
    findIndex (matchesSelected sel) profiles = some i := by
  obtain ⟨i0, hi0⟩ :=
    findIndex_isSome_of_mem (matchesSelected sel) profiles entry (List.get?_mem h.1) h.2.1
  obtain ⟨e0, hg0, hm0, hb0⟩ := findIndex_eq_some _ _ i0 hi0
  have := (isFirstMatch_unique sel profiles i0 i e0 entry ⟨hg0, hm0, hb0⟩ h).1
  rw [hi0, this]

theorem profiles_profileUpdater_of_isFirstMatch (patch : Obj) (s : AuthState) (i : Nat)
    (entry : Obj) (h : IsFirstMatch s.selectedProfile s.profiles i entry) :
    (profileUpdater patch s).profiles = s.profiles.set i (spread (some entry) patch) := by
  simp only [profileUpdater, findIndex_of_isFirstMatch _ _ i entry h, h.1]

theorem profiles_profileUpdater_of_no_match (patch : Obj) (s : AuthState)
    (h : findIndex (matchesSelected s.selectedProfile) s.profiles = none) :
    (profileUpdater patch s).profiles = s.profiles := by
  simp only [profileUpdater, h]

theorem get?_profiles_of_isFirstMatch (w : World) (patch : Obj) (i : Nat)
    (entry : Obj)
    (hfirst : IsFirstMatch w.authState.selectedProfile w.authState.profiles i entry) :
    (run (handleProfileUpdate patch) w).authState.profiles.get? i =
      some (spread (some entry) patch) := by
  have hrun : (run (handleProfileUpdate patch) w).authState.profiles =
      (profileUpdater patch w.authState).profiles := rfl
  rw [hrun, profiles_profileUpdater_of_isFirstMatch patch _ i entry hfirst]
  have hlt : i < w.authState.profiles.length := by
    have := hfirst.1
    rw [List.get?_eq_getElem?] at this
    exact (List.getElem?_eq_some_iff.mp this).1
  rw [List.get?_eq_getElem?, List.getElem?_set_self hlt]

/-- C18: for every world and every patch, `handleProfileUpdate(patch)`
keeps the length of `profiles`; the first entry that matches the selected
profile on `(name, profile_emoji)` becomes that entry overridden by the
patch; every other entry, a later matching one included, stays as it is at
its index; and there is at most one first matching entry. -/
theorem handleProfileUpdate_first_match_only (w : World) (patch : Obj) :
    (run (handleProfileUpdate patch) w).authState.profiles.length =
      w.authState.profiles.length ∧
    (∀ j q, IsFirstMatch w.authState.selectedProfile w.authState.profiles j q →
      (run (handleProfileUpdate patch) w).authState.profiles.get? j =
        some (spread (some q) patch)) ∧
    (∀ j q, w.authState.profiles.get? j = some q →
      ¬ IsFirstMatch w.authState.selectedProfile w.authState.profiles j q →
      (run (handleProfileUpdate patch) w).authState.profiles.get? j = some q) ∧
    (∀ i j p q, IsFirstMatch w.authState.selectedProfile w.authState.profiles i p →
      IsFirstMatch w.authState.selectedProfile w.authState.profiles j q → i = j) := by
  have hrun : (run (handleProfileUpdate patch) w).authState.profiles =
      (profileUpdater patch w.authState).profiles := rfl
  rw [hrun]
  refine ⟨?_, ?_, ?_, fun i j p q hi hj => (isFirstMatch_unique _ _ i j p q hi hj).1⟩
  · cases hidx : findIndex (matchesSelected w.authState.selectedProfile)
        w.authState.profiles with
    | none => rw [profiles_profileUpdater_of_no_match patch _ hidx]
    | some i =>
      obtain ⟨entry, hg, hm, hb⟩ := findIndex_eq_some _ _ i hidx
      rw [profiles_profileUpdater_of_isFirstMatch patch _ i entry ⟨hg, hm, hb⟩,
        List.length_set]
  · intro j q hfirst
    exact get?_profiles_of_isFirstMatch w patch j q hfirst
  · intro j q hget hnot
    cases hidx : findIndex (matchesSelected w.authState.selectedProfile)
        w.authState.profiles with
    | none => rw [profiles_profileUpdater_of_no_match patch _ hidx]; exact hget
    | some i =>
      obtain ⟨entry, hg, hm, hb⟩ := findIndex_eq_some _ _ i hidx
      rw [profiles_profileUpdater_of_isFirstMatch patch _ i entry ⟨hg, hm, hb⟩]
      have hne : i ≠ j := by
        intro e
        subst e
        rw [hg] at hget
        have : entry = q := Option.some.inj hget
        subst this
        exact hnot ⟨hg, hm, hb⟩
      rw [List.get?_eq_getElem?, List.getElem?_set_ne hne, ← List.get?_eq_getElem?]
      exact hget

/-- An instance of C18: of two listed profiles equal on
`(name, profile_emoji)` to the selected one, the patch `{ age: 6 }` reaches
the first (index 1) and leaves the other entries, the later duplicate at
index 2 included, as they were. -/
theorem handleProfileUpdate_first_match_only_example :
    (run (handleProfileUpdate [("age", JVal.num 6)])
        ⟨none, duplicateState⟩).authState.profiles =
      [[("name", JVal.str "B"), ("profile_emoji", JVal.str "🙂")],
       [("name", JVal.str "A"), ("profile_emoji", JVal.str "🙂"), ("age", JVal.num 6)],
       [("name", JVal.str "A"), ("profile_emoji", JVal.str "🙂"), ("age", JVal.num 7)]] ∧
    (run (handleProfileUpdate [("age", JVal.num 6)])
        ⟨none, duplicateState⟩).authState.profiles.length = duplicateState.profiles.length :=
  ⟨by decide,
   (handleProfileUpdate_first_match_only ⟨none, duplicateState⟩ [("age", JVal.num 6)]).1⟩

/-- C19: when the first entry of `profiles` matching the selected profile
on `(name, profile_emoji)` is at index `i`, then after
`handleProfileUpdate(patch)`, for any patch, the entry at index `i` reads
the same `name` and the same `profile_emoji` as the new selected profile;
it matches it under `===` as well unless one of the two values is `NaN`. -/
theorem handleProfileUpdate_keeps_link (w : World) (patch : Obj) (i : Nat) (entry : Obj)
    (hfirst : IsFirstMatch w.authState.selectedProfile w.authState.profiles i entry) :
    ∃ e,
      (run (handleProfileUpdate patch) w).authState.profiles.get? i = some e ∧
      getProp e "name" =
        getPropOpt (run (handleProfileUpdate patch) w).authState.selectedProfile "name" ∧
      getProp e "profile_emoji" =
        getPropOpt (run (handleProfileUpdate patch) w).authState.selectedProfile
          "profile_emoji" ∧
      (getProp e "name" ≠ JVal.nan → getProp e "profile_emoji" ≠ JVal.nan →
        matchesSelected (run (handleProfileUpdate patch) w).authState.selectedProfile e =
          true) := by
  have hsel : (run (handleProfileUpdate patch) w).authState.selectedProfile =
      some (spread w.authState.selectedProfile patch) := rfl
  have hget := get?_profiles_of_isFirstMatch w patch i entry hfirst
  have hkey : ∀ k : String,
      strictEq (getProp entry k) (getPropOpt w.authState.selectedProfile k) = true →
      getProp (spread (some entry) patch) k =
        getProp (spread w.authState.selectedProfile patch) k := by
    intro k hk
    have heq := strictEq_eq_true _ _ hk
    unfold spread
    apply getProp_assign_congr
    cases hs : w.authState.selectedProfile with
    | none => rw [hs] at heq; exact heq
    | some o => rw [hs] at heq; exact heq
  have hm := hfirst.2.1
  simp only [matchesSelected, Bool.and_eq_true] at hm
  have hname := hkey "name" hm.1
  have hemoji := hkey "profile_emoji" hm.2
  refine ⟨spread (some entry) patch, hget, ?_, ?_, ?_⟩
  · rw [hsel]; exact hname
  · rw [hsel]; exact hemoji
  · intro hn he
    rw [hsel]
    simp only [matchesSelected, Bool.and_eq_true, getPropOpt]
    rw [← hname, ← hemoji]
    exact ⟨strictEq_self _ hn, strictEq_self _ he⟩

/-- An instance of C19: the worked example with the patch `{ name: "Z" }`,
which renames the selected profile and its entry at index 0 alike. -/
theorem handleProfileUpdate_keeps_link_example :
    IsFirstMatch exampleWorld.authState.selectedProfile exampleWorld.authState.profiles 0
      [("name", JVal.str "A"), ("profile_emoji", JVal.str "🙂"), ("age", JVal.num 5)] ∧
    (∃ e,
      (run (handleProfileUpdate [("name", JVal.str "Z")])
        exampleWorld).authState.profiles.get? 0 = some e ∧
      getProp e "name" =
        getPropOpt (run (handleProfileUpdate [("name", JVal.str "Z")])
          exampleWorld).authState.selectedProfile "name" ∧
      getProp e "profile_emoji" =
        getPropOpt (run (handleProfileUpdate [("name", JVal.str "Z")])
          exampleWorld).authState.selectedProfile "profile_emoji" ∧
      (getProp e "name" ≠ JVal.nan → getProp e "profile_emoji" ≠ JVal.nan →
        matchesSelected (run (handleProfileUpdate [("name", JVal.str "Z")])
          exampleWorld).authState.selectedProfile e = true)) ∧
    getPropOpt (run (handleProfileUpdate [("name", JVal.str "Z")])
      exampleWorld).authState.selectedProfile "name" = JVal.str "Z" :=
  ⟨⟨rfl, by decide, fun j hj => absurd hj (Nat.not_lt_zero j)⟩,
   handleProfileUpdate_keeps_link exampleWorld [("name", JVal.str "Z")] 0 _
     ⟨rfl, by decide, fun j hj => absurd hj (Nat.not_lt_zero j)⟩,
   by decide⟩

end CineScope
